import Mathlib

/-!
# PesuConnect frontend: shallow embedding and verification

This file embeds the data-access layer and the relevant form handlers of
`src/frontend.py` (a Streamlit front end over a MySQL database) and proves
the frozen claims about them.

Modelling choices:

* The database connection is a state `Conn` holding an oracle
  `env : Nat → OpResult` that decides the outcome of the i-th fallible
  database operation (statement execution, procedure call, or commit),
  an operation counter `idx`, and a `log` of every operation attempted,
  in order.  `mysql.connector` statements and `conn.commit()` consult the
  oracle; `conn.rollback()` is recorded and assumed not to raise.
* Query results are lists of rows; a row is an association list
  (the `dictionary=True` cursor of the source).  `cursor.lastrowid` is the
  `Nat` carried by a successful `OpResult.ok`.
* Streamlit output (`st.error` / `st.warning` / `st.success`) is collected
  in a list of `UIMsg`.
* A Python exception that is *not* a `mysql.connector.Error` (e.g. a
  `KeyError`/`TypeError` from subscripting a missing dictionary key in
  `db_add_skill`) escapes the `except` clause; this is the `PyRet.exn`
  constructor.
* SQL text is kept verbatim (whitespace of the Python triple-quoted
  strings collapsed to single spaces).
-/

namespace PESUConnect

/-- A parameter or column value travelling between the app and the database. -/
inductive Value where
  | vStr : String → Value
  | vNat : Nat → Value
  | vRat : ℚ → Value
  | vNull : Value
  deriving DecidableEq, Repr

/-- A row as returned by a `dictionary=True` cursor: column name to value. -/
abbrev Row : Type := List (String × Value)

/-- Python dictionary subscript `row[k]`: `none` models a raised `KeyError`. -/
def rowGet (r : Row) (k : String) : Option Value :=
  (r.find? (fun p => p.1 == k)).map (fun p => p.2)

/-- Python truthiness of a `fetchone()` result: `None` and `\x7b\x7d` are falsy. -/
def rowTruthy : Option Row → Bool
  | none => false
  | some r => !r.isEmpty

/-- Oracle answer for one fallible database operation: rows fetched and
`lastrowid` on success, or the error message of a raised
`mysql.connector.Error`. -/
inductive OpResult where
  | ok : List Row → Nat → OpResult
  | err : String → OpResult
  deriving DecidableEq, Repr

/-- One entry of the connection trace. -/
inductive Event where
  | execute : String → List Value → Event
  | callproc : String → List Value → Event
  | commit : Event
  | rollback : Event
  deriving DecidableEq, Repr

/-- The connection state: the outcome oracle, the index of the next fallible
operation, and the trace of operations attempted so far. -/
structure Conn where
  env : Nat → OpResult
  idx : Nat
  log : List Event

/-- Messages surfaced to the user through Streamlit. -/
inductive UIMsg where
  | uiError : String → UIMsg
  | uiWarning : String → UIMsg
  | uiSuccess : String → UIMsg
  deriving DecidableEq, Repr

/-- Result of a Python function body: a normal return, or an uncaught
non-database exception propagating to the caller. -/
inductive PyRet (α : Type) where
  | ret : α → PyRet α
  | exn : String → PyRet α
  deriving DecidableEq, Repr

/-- Attempt one fallible statement / procedure call: consult the oracle,
advance the counter, record the event. -/
def runStmt (c : Conn) (ev : Event) : OpResult × Conn :=
  (c.env c.idx, { c with idx := c.idx + 1, log := c.log ++ [ev] })

/-- `conn.commit()`: fallible, recorded. -/
def runCommit (c : Conn) : OpResult × Conn :=
  runStmt c Event.commit

/-- `conn.rollback()` in an `except` clause: recorded, assumed to succeed. -/
def runRollback (c : Conn) : Conn :=
  { c with log := c.log ++ [Event.rollback] }

/-! ## SQL text of the source (verbatim, whitespace collapsed) -/

def sqlInsertStudent : String :=
  "INSERT INTO Student (name, email, password, phone_number, department, year_of_study) VALUES (%s, %s, %s, %s, %s, %s)"

def sqlMyProjects : String :=
  "SELECT p.project_id, p.title, p.status, fn_GetProjectApplicationCount(p.project_id) AS pending_apps FROM Project p WHERE p.student_id = %s"

def sqlPendingApps : String :=
  "SELECT a.application_id, a.application_date, s.name AS applicant_name FROM Application a JOIN Student s ON a.student_id = s.student_id WHERE a.project_id = %s AND a.status = \x27Pending\x27"

def sqlMySkills : String :=
  "SELECT s.skill_id, s.skill_name, ss.proficiency_level FROM Student_Skill ss JOIN Skill s ON ss.skill_id = s.skill_id WHERE ss.student_id = %s"

def sqlCheckUserSkill : String :=
  "SELECT ss.student_id FROM Student_Skill ss JOIN Skill s ON ss.skill_id = s.skill_id WHERE ss.student_id = %s AND s.skill_name = %s"

def sqlSelectSkillId : String :=
  "SELECT skill_id FROM Skill WHERE skill_name = %s"

def sqlInsertSkill : String :=
  "INSERT INTO Skill (skill_name) VALUES (%s)"

def sqlInsertStudentSkill : String :=
  "INSERT INTO Student_Skill (student_id, skill_id, proficiency_level) VALUES (%s, %s, %s)"

def sqlUpdateSkill : String :=
  "UPDATE Student_Skill SET proficiency_level = %s WHERE student_id = %s AND skill_id = %s"

def sqlRemoveSkill : String :=
  "DELETE FROM Student_Skill WHERE student_id = %s AND skill_id = %s"

def sqlContractsFreelancer : String :=
  "SELECT c.contract_id, p.title AS project_title, s.name AS project_owner_name, c.start_date, c.end_date FROM Contract c JOIN Project p ON c.project_id = p.project_id JOIN Student s ON p.student_id = s.student_id WHERE c.student_id = %s AND p.status = \x27In Progress\x27"

def sqlContractsOwner : String :=
  "SELECT c.contract_id, p.title AS project_title, s.name AS freelancer_name, c.start_date, c.end_date FROM Contract c JOIN Project p ON c.project_id = p.project_id JOIN Student s ON c.student_id = s.student_id WHERE p.student_id = %s AND p.status = \x27In Progress\x27"

def sqlInsertPayment : String :=
  "INSERT INTO Payment (amount, payment_date, status, payment_method, contract_id) VALUES (%s, CURDATE(), \x27Paid\x27, %s, %s)"

def sqlReviewStats : String :=
  "SELECT fn_GetStudentAverageRating(%s) AS avg, fn_GetStudentReviewCount(%s) AS count"

def sqlMyReviews : String :=
  "SELECT r.rating, r.review_text, p.title AS project_title FROM Review r JOIN Contract c ON r.contract_id = c.contract_id JOIN Project p ON c.project_id = p.project_id WHERE r.student_id = %s ORDER BY c.end_date DESC"

/-! ## Data-access functions (`db_*` of `frontend.py`)

Each returns its Python return value, the connection state after the call,
and the Streamlit messages it emitted. -/

/-- The shared try/except shape of the single-statement mutators: attempt the
statement, commit, return `True`; on a database error surface
`emsg ++ error`, roll back and return `False`. -/
def writeOp (c : Conn) (ev : Event) (emsg : String) : Bool × Conn × List UIMsg :=
  match runStmt c ev with
  | (OpResult.err m, c1) => (false, runRollback c1, [UIMsg.uiError (emsg ++ m)])
  | (OpResult.ok _ _, c1) =>
    match runCommit c1 with
    | (OpResult.err m, c2) => (false, runRollback c2, [UIMsg.uiError (emsg ++ m)])
    | (OpResult.ok _ _, c2) => (true, c2, [])

/-- `db_student_login`: `sp_StudentLogin`, returns `fetchone()` of the result
set (`None` on a caught error). -/
def db_student_login (c : Conn) (email password : String) :
    Option Row × Conn × List UIMsg :=
  match runStmt c (Event.callproc "sp_StudentLogin" [Value.vStr email, Value.vStr password]) with
  | (OpResult.err m, c1) => (none, c1, [UIMsg.uiError ("Login error: " ++ m)])
  | (OpResult.ok rows _, c1) => (rows.head?, c1, [])

/-- `db_student_register`: direct `INSERT INTO Student`. -/
def db_student_register (c : Conn)
    (name email password phone department : String) (year : Nat) :
    Bool × Conn × List UIMsg :=
  writeOp c
    (Event.execute sqlInsertStudent
      [Value.vStr name, Value.vStr email, Value.vStr password,
       Value.vStr phone, Value.vStr department, Value.vNat year])
    "Error registering: "

/-- `db_get_open_projects`: `sp_SearchProjects(NULL, \x27Open\x27)`, `fetchall`. -/
def db_get_open_projects (c : Conn) : List Row × Conn × List UIMsg :=
  match runStmt c (Event.callproc "sp_SearchProjects" [Value.vNull, Value.vStr "Open"]) with
  | (OpResult.err m, c1) => ([], c1, [UIMsg.uiError ("Error fetching projects: " ++ m)])
  | (OpResult.ok rows _, c1) => (rows, c1, [])

/-- `db_apply_for_project`: `sp_CreateApplication(user_id, project_id)`. -/
def db_apply_for_project (c : Conn) (user_id project_id : Nat) :
    Bool × Conn × List UIMsg :=
  writeOp c
    (Event.callproc "sp_CreateApplication" [Value.vNat user_id, Value.vNat project_id])
    "Error applying for project: "

/-- `db_create_project`: `sp_CreateProject(user_id, title, description, deadline)`. -/
def db_create_project (c : Conn) (user_id : Nat)
    (title description deadline : String) : Bool × Conn × List UIMsg :=
  writeOp c
    (Event.callproc "sp_CreateProject"
      [Value.vNat user_id, Value.vStr title, Value.vStr description, Value.vStr deadline])
    "Error creating project: "

/-- `db_get_my_projects`: one `SELECT`, `fetchall`. -/
def db_get_my_projects (c : Conn) (user_id : Nat) : List Row × Conn × List UIMsg :=
  match runStmt c (Event.execute sqlMyProjects [Value.vNat user_id]) with
  | (OpResult.err m, c1) => ([], c1, [UIMsg.uiError ("Error fetching your projects: " ++ m)])
  | (OpResult.ok rows _, c1) => (rows, c1, [])

/-- `db_get_pending_applications`: one `SELECT`, `fetchall`. -/
def db_get_pending_applications (c : Conn) (project_id : Nat) :
    List Row × Conn × List UIMsg :=
  match runStmt c (Event.execute sqlPendingApps [Value.vNat project_id]) with
  | (OpResult.err m, c1) => ([], c1, [UIMsg.uiError ("Error fetching applications: " ++ m)])
  | (OpResult.ok rows _, c1) => (rows, c1, [])

/-- `db_accept_application`: `sp_AcceptApplication(app_id)`. -/
def db_accept_application (c : Conn) (app_id : Nat) : Bool × Conn × List UIMsg :=
  writeOp c (Event.callproc "sp_AcceptApplication" [Value.vNat app_id])
    "Error accepting application: "

/-- `db_reject_application`: `sp_RejectApplication(app_id)`. -/
def db_reject_application (c : Conn) (app_id : Nat) : Bool × Conn × List UIMsg :=
  writeOp c (Event.callproc "sp_RejectApplication" [Value.vNat app_id])
    "Error rejecting application: "

/-- `db_get_my_skills`: one `SELECT`, `fetchall`. -/
def db_get_my_skills (c : Conn) (user_id : Nat) : List Row × Conn × List UIMsg :=
  match runStmt c (Event.execute sqlMySkills [Value.vNat user_id]) with
  | (OpResult.err m, c1) => ([], c1, [UIMsg.uiError ("Error fetching skills: " ++ m)])
  | (OpResult.ok rows _, c1) => (rows, c1, [])

/-- Tail of `db_add_skill` once a `skill_id` value is in hand: insert the
`Student_Skill` link and commit. -/
def addSkillLink (c : Conn) (user_id : Nat) (sid : Value) (proficiency : String) :
    PyRet Bool × Conn × List UIMsg :=
  match runStmt c (Event.execute sqlInsertStudentSkill
      [Value.vNat user_id, sid, Value.vStr proficiency]) with
  | (OpResult.err m, c1) =>
    (PyRet.ret false, runRollback c1, [UIMsg.uiError ("Error adding skill: " ++ m)])
  | (OpResult.ok _ _, c1) =>
    match runCommit c1 with
    | (OpResult.err m, c2) =>
      (PyRet.ret false, runRollback c2, [UIMsg.uiError ("Error adding skill: " ++ m)])
    | (OpResult.ok _ _, c2) => (PyRet.ret true, c2, [])

/-- `db_add_skill`: duplicate check, then get-or-create the `Skill` row, then
insert the `Student_Skill` link.  Dictionary subscripts on a missing key or
on `None` raise a non-database exception (`PyRet.exn`), uncaught by the
`except mysql.connector.Error` clause. -/
def db_add_skill (c : Conn) (user_id : Nat) (skill_name proficiency : String) :
    PyRet Bool × Conn × List UIMsg :=
  match runStmt c (Event.execute sqlCheckUserSkill
      [Value.vNat user_id, Value.vStr skill_name]) with
  | (OpResult.err m, c1) =>
    (PyRet.ret false, runRollback c1, [UIMsg.uiError ("Error adding skill: " ++ m)])
  | (OpResult.ok rows0 _, c1) =>
    if rowTruthy rows0.head? then
      (PyRet.ret false, c1,
        [UIMsg.uiWarning ("You have already added \x27" ++ skill_name ++ "\x27 to your profile.")])
    else
      match runStmt c1 (Event.execute sqlSelectSkillId [Value.vStr skill_name]) with
      | (OpResult.err m, c2) =>
        (PyRet.ret false, runRollback c2, [UIMsg.uiError ("Error adding skill: " ++ m)])
      | (OpResult.ok rows1 _, c2) =>
        if rowTruthy rows1.head? then
          match rows1.head? with
          | none => (PyRet.exn "TypeError", c2, [])
          | some skill =>
            match rowGet skill "skill_id" with
            | none => (PyRet.exn "KeyError: skill_id", c2, [])
            | some sid => addSkillLink c2 user_id sid proficiency
        else
          match runStmt c2 (Event.execute sqlInsertSkill [Value.vStr skill_name]) with
          | (OpResult.err m, c3) =>
            (PyRet.ret false, runRollback c3, [UIMsg.uiError ("Error adding skill: " ++ m)])
          | (OpResult.ok _ rid, c3) =>
            if rid ≠ 0 then addSkillLink c3 user_id (Value.vNat rid) proficiency
            else
              match runStmt c3 (Event.execute sqlSelectSkillId [Value.vStr skill_name]) with
              | (OpResult.err m, c4) =>
                (PyRet.ret false, runRollback c4, [UIMsg.uiError ("Error adding skill: " ++ m)])
              | (OpResult.ok rows2 _, c4) =>
                match rows2.head? with
                | none => (PyRet.exn "TypeError: NoneType is not subscriptable", c4, [])
                | some sk2 =>
                  match rowGet sk2 "skill_id" with
                  | none => (PyRet.exn "KeyError: skill_id", c4, [])
                  | some sid => addSkillLink c4 user_id sid proficiency

/-- `db_update_skill`: one `UPDATE`. -/
def db_update_skill (c : Conn) (user_id skill_id : Nat) (proficiency : String) :
    Bool × Conn × List UIMsg :=
  writeOp c
    (Event.execute sqlUpdateSkill
      [Value.vStr proficiency, Value.vNat user_id, Value.vNat skill_id])
    "Error updating skill: "

/-- `db_remove_skill`: one `DELETE`. -/
def db_remove_skill (c : Conn) (user_id skill_id : Nat) : Bool × Conn × List UIMsg :=
  writeOp c
    (Event.execute sqlRemoveSkill [Value.vNat user_id, Value.vNat skill_id])
    "Error removing skill: "

/-- `db_get_my_contracts`: two `SELECT`s (freelancer view, owner view),
returning the pair of result sets; `([], [])` on a caught error. -/
def db_get_my_contracts (c : Conn) (user_id : Nat) :
    (List Row × List Row) × Conn × List UIMsg :=
  match runStmt c (Event.execute sqlContractsFreelancer [Value.vNat user_id]) with
  | (OpResult.err m, c1) =>
    (([], []), c1, [UIMsg.uiError ("Error fetching contracts: " ++ m)])
  | (OpResult.ok rows1 _, c1) =>
    match runStmt c1 (Event.execute sqlContractsOwner [Value.vNat user_id]) with
    | (OpResult.err m, c2) =>
      (([], []), c2, [UIMsg.uiError ("Error fetching contracts: " ++ m)])
    | (OpResult.ok rows2 _, c2) => ((rows1, rows2), c2, [])

/-- `db_complete_contract`: `sp_CompleteContract(contract_id)`. -/
def db_complete_contract (c : Conn) (contract_id : Value) : Bool × Conn × List UIMsg :=
  writeOp c (Event.callproc "sp_CompleteContract" [contract_id])
    "Error marking contract complete: "

/-- `db_create_review`: `sp_CreateReview(review_text, rating, contract_id, reviewer_id)`. -/
def db_create_review (c : Conn) (review_text : String) (rating : Nat)
    (contract_id : Value) (reviewer_id : Nat) : Bool × Conn × List UIMsg :=
  writeOp c
    (Event.callproc "sp_CreateReview"
      [Value.vStr review_text, Value.vNat rating, contract_id, Value.vNat reviewer_id])
    "Error submitting review: "

/-- `db_create_payment`: direct parameterized `INSERT INTO Payment`, with
`payment_date = CURDATE()` and `status = \x27Paid\x27` fixed in the SQL text. -/
def db_create_payment (c : Conn) (amount : ℚ) (payment_method : String)
    (contract_id : Value) : Bool × Conn × List UIMsg :=
  writeOp c
    (Event.execute sqlInsertPayment
      [Value.vRat amount, Value.vStr payment_method, contract_id])
    "Error processing payment: "

/-- `db_get_my_reviews`: the stats `SELECT` (`fetchone`) then the review list
`SELECT` (`fetchall`); `(None, [])` on a caught error. -/
def db_get_my_reviews (c : Conn) (user_id : Nat) :
    (Option Row × List Row) × Conn × List UIMsg :=
  match runStmt c (Event.execute sqlReviewStats [Value.vNat user_id, Value.vNat user_id]) with
  | (OpResult.err m, c1) =>
    ((none, []), c1, [UIMsg.uiError ("Error fetching reviews: " ++ m)])
  | (OpResult.ok rows1 _, c1) =>
    match runStmt c1 (Event.execute sqlMyReviews [Value.vNat user_id]) with
    | (OpResult.err m, c2) =>
      ((none, []), c2, [UIMsg.uiError ("Error fetching reviews: " ++ m)])
    | (OpResult.ok rows2 _, c2) => ((rows1.head?, rows2), c2, [])

/-! ## UI layer: session state and the form handlers the claims mention -/

/-- Streamlit `st.session_state` as used by `main` and the pages:
`logged_in`, `user`, and the transient `contract_to_complete`
(`none` models the key being absent). -/
structure Session where
  logged_in : Bool
  user : Option Row
  contract_to_complete : Option Row
  deriving DecidableEq, Repr

/-- Session-state defaults set at the top of `main`. -/
def initSession : Session :=
  { logged_in := false, user := none, contract_to_complete := none }

/-- The sidebar Logout button of `main`. -/
def logoutAction (s : Session) : Session :=
  { s with logged_in := false, user := none }

/-- The submitted branch of the login form in `show_login_page`: shape check,
then `db_student_login`; on a truthy user the session is logged in. -/
def loginSubmit (c : Conn) (s : Session) (email password : String) :
    Session × Conn × List UIMsg :=
  if email = "" ∨ password = "" then
    (s, c, [UIMsg.uiWarning "Please fill in all fields."])
  else
    match db_student_login c email password with
    | (u, c1, ms) =>
      if rowTruthy u then
        ({ s with logged_in := true, user := u }, c1,
          ms ++ [UIMsg.uiSuccess "Login successful!"])
      else
        (s, c1, ms ++ [UIMsg.uiError "Invalid credentials."])

/-- The submitted branch of the sign-up form in `show_login_page`: required
fields, password confirmation, then `db_student_register`. -/
def signupSubmit (c : Conn)
    (email name password confirm_password phone department : String) (year : Nat) :
    Conn × List UIMsg :=
  if email = "" ∨ name = "" ∨ password = "" ∨ department = "" then
    (c, [UIMsg.uiWarning "Please fill in all required fields."])
  else if password ≠ confirm_password then
    (c, [UIMsg.uiError "Passwords do not match."])
  else
    match db_student_register c name email password phone department year with
    | (true, c1, ms) =>
      (c1, ms ++ [UIMsg.uiSuccess "Registration successful! Please go to the Login tab."])
    | (false, c1, ms) =>
      (c1, ms ++ [UIMsg.uiError "Registration failed. Email may already be in use."])

/-- The submitted branch of the completion form in
`show_active_contracts_page` (the three-step sequence): shape check, then
`db_complete_contract`, `db_create_review`, `db_create_payment`, each
guarded by the previous one's result.  `cid` stands for the value of
`contract[\x27contract_id\x27]`; `s.contract_to_complete` is deleted only when
all three steps succeed. -/
def completeContractSubmit (c : Conn) (s : Session) (reviewer_id : Nat)
    (rating : Nat) (review_text : String) (amount : ℚ) (payment_method : String)
    (cid : Value) : Session × Conn × List UIMsg :=
  if review_text = "" ∨ amount = 0 then
    (s, c, [UIMsg.uiWarning "Please fill in all review and payment fields."])
  else
    match db_complete_contract c cid with
    | (false, c1, ms1) =>
      (s, c1, ms1 ++ [UIMsg.uiError "Contract completion failed. Please try again."])
    | (true, c1, ms1) =>
      match db_create_review c1 review_text rating cid reviewer_id with
      | (false, c2, ms2) =>
        (s, c2, ms1 ++ ms2 ++ [UIMsg.uiError "Review failed. Please try again."])
      | (true, c2, ms2) =>
        match db_create_payment c2 amount payment_method cid with
        | (false, c3, ms3) =>
          (s, c3, ms1 ++ ms2 ++ ms3 ++ [UIMsg.uiError "Payment failed. Please try again."])
        | (true, c3, ms3) =>
          ({ s with contract_to_complete := none }, c3,
            ms1 ++ ms2 ++ ms3 ++
              [UIMsg.uiSuccess "Contract completed, review submitted, and payment processed!"])

/-! ## Shared helper lemmas -/

/-- A database-error outcome of a mutator: returned `False`, the trace ends
in a rollback, and the error text was surfaced. -/
def failsWith (o : Bool × Conn × List UIMsg) (em : String) : Prop :=
  o.1 = false ∧ o.2.1.log.getLast? = some Event.rollback ∧ UIMsg.uiError em ∈ o.2.2

/-- As `failsWith`, for the `PyRet`-returning `db_add_skill`. -/
def failsWithP (o : PyRet Bool × Conn × List UIMsg) (em : String) : Prop :=
  o.1 = PyRet.ret false ∧ o.2.1.log.getLast? = some Event.rollback ∧
    UIMsg.uiError em ∈ o.2.2

theorem writeOp_err1 (c : Conn) (ev : Event) (p m : String)
    (h : c.env c.idx = OpResult.err m) :
    writeOp c ev p =
      (false, ⟨c.env, c.idx + 1, c.log ++ [ev, Event.rollback]⟩,
        [UIMsg.uiError (p ++ m)]) := by
  simp [writeOp, runStmt, runRollback, h]

theorem writeOp_err2 (c : Conn) (ev : Event) (p m : String) (r0 : List Row) (n0 : Nat)
    (h0 : c.env c.idx = OpResult.ok r0 n0) (h1 : c.env (c.idx + 1) = OpResult.err m) :
    writeOp c ev p =
      (false, ⟨c.env, c.idx + 2, c.log ++ [ev, Event.commit, Event.rollback]⟩,
        [UIMsg.uiError (p ++ m)]) := by
  simp [writeOp, runStmt, runCommit, runRollback, h0, h1]

theorem writeOp_ok (c : Conn) (ev : Event) (p : String) (r0 r1 : List Row) (n0 n1 : Nat)
    (h0 : c.env c.idx = OpResult.ok r0 n0) (h1 : c.env (c.idx + 1) = OpResult.ok r1 n1) :
    writeOp c ev p = (true, ⟨c.env, c.idx + 2, c.log ++ [ev, Event.commit]⟩, []) := by
  simp [writeOp, runStmt, runCommit, h0, h1]

theorem writeOp_fails_err1 (c : Conn) (ev : Event) (p m : String)
    (h : c.env c.idx = OpResult.err m) :
    failsWith (writeOp c ev p) (p ++ m) := by
  rw [writeOp_err1 c ev p m h]
  refine ⟨rfl, ?_, by simp⟩
  show (c.log ++ ([ev] ++ [Event.rollback])).getLast? = some Event.rollback
  rw [← List.append_assoc]
  exact List.getLast?_concat _

theorem writeOp_fails_err2 (c : Conn) (ev : Event) (p m : String) (r0 : List Row) (n0 : Nat)
    (h0 : c.env c.idx = OpResult.ok r0 n0) (h1 : c.env (c.idx + 1) = OpResult.err m) :
    failsWith (writeOp c ev p) (p ++ m) := by
  rw [writeOp_err2 c ev p m r0 n0 h0 h1]
  refine ⟨rfl, ?_, by simp⟩
  show (c.log ++ ([ev, Event.commit] ++ [Event.rollback])).getLast? = some Event.rollback
  rw [← List.append_assoc]
  exact List.getLast?_concat _

theorem writeOp_first (c : Conn) (ev : Event) (p : String) :
    ∃ t, (writeOp c ev p).2.1.log = c.log ++ ev :: t := by
  rcases h0 : c.env c.idx with ⟨r0, n0⟩ | m
  · rcases h1 : c.env (c.idx + 1) with ⟨r1, n1⟩ | m
    · exact ⟨[Event.commit], by rw [writeOp_ok c ev p r0 r1 n0 n1 h0 h1]⟩
    · exact ⟨[Event.commit, Event.rollback], by rw [writeOp_err2 c ev p m r0 n0 h0 h1]⟩
  · exact ⟨[Event.rollback], by rw [writeOp_err1 c ev p m h0]⟩

theorem addSkillLink_err1 (c : Conn) (uid : Nat) (sid : Value) (prof m : String)
    (h : c.env c.idx = OpResult.err m) :
    addSkillLink c uid sid prof =
      (PyRet.ret false,
        ⟨c.env, c.idx + 1,
          c.log ++ [Event.execute sqlInsertStudentSkill
            [Value.vNat uid, sid, Value.vStr prof], Event.rollback]⟩,
        [UIMsg.uiError ("Error adding skill: " ++ m)]) := by
  simp [addSkillLink, runStmt, runRollback, h]

theorem addSkillLink_err2 (c : Conn) (uid : Nat) (sid : Value) (prof m : String)
    (r0 : List Row) (n0 : Nat)
    (h0 : c.env c.idx = OpResult.ok r0 n0) (h1 : c.env (c.idx + 1) = OpResult.err m) :
    addSkillLink c uid sid prof =
      (PyRet.ret false,
        ⟨c.env, c.idx + 2,
          c.log ++ [Event.execute sqlInsertStudentSkill
            [Value.vNat uid, sid, Value.vStr prof], Event.commit, Event.rollback]⟩,
        [UIMsg.uiError ("Error adding skill: " ++ m)]) := by
  simp [addSkillLink, runStmt, runCommit, runRollback, h0, h1]

theorem addSkillLink_ok (c : Conn) (uid : Nat) (sid : Value) (prof : String)
    (r0 r1 : List Row) (n0 n1 : Nat)
    (h0 : c.env c.idx = OpResult.ok r0 n0) (h1 : c.env (c.idx + 1) = OpResult.ok r1 n1) :
    addSkillLink c uid sid prof =
      (PyRet.ret true,
        ⟨c.env, c.idx + 2,
          c.log ++ [Event.execute sqlInsertStudentSkill
            [Value.vNat uid, sid, Value.vStr prof], Event.commit]⟩, []) := by
  simp [addSkillLink, runStmt, runCommit, h0, h1]

/-- Marker for the three database calls of the contract-completion wizard:
the `sp_CompleteContract` call, the `sp_CreateReview` call, and the
`Payment` insert. -/
def isStep : Event → Bool
  | Event.callproc n _ => n == "sp_CompleteContract" || n == "sp_CreateReview"
  | Event.execute q _ => q == sqlInsertPayment
  | _ => false

/-- The wizard's first database call. -/
abbrev evComplete (cid : Value) : Event :=
  Event.callproc "sp_CompleteContract" [cid]

/-- The wizard's second database call. -/
abbrev evReview (review_text : String) (rating : Nat) (cid : Value) (reviewer_id : Nat) :
    Event :=
  Event.callproc "sp_CreateReview"
    [Value.vStr review_text, Value.vNat rating, cid, Value.vNat reviewer_id]

/-- The wizard's third database call. -/
abbrev evPayment (amount : ℚ) (payment_method : String) (cid : Value) : Event :=
  Event.execute sqlInsertPayment [Value.vRat amount, Value.vStr payment_method, cid]

theorem db_complete_contract_err1 (c : Conn) (cid : Value) (m : String)
    (h : c.env c.idx = OpResult.err m) :
    db_complete_contract c cid =
      (false, ⟨c.env, c.idx + 1, c.log ++ [evComplete cid, Event.rollback]⟩,
        [UIMsg.uiError ("Error marking contract complete: " ++ m)]) :=
  writeOp_err1 c _ _ m h

theorem db_complete_contract_err2 (c : Conn) (cid : Value) (m : String)
    (r0 : List Row) (n0 : Nat)
    (h0 : c.env c.idx = OpResult.ok r0 n0) (h1 : c.env (c.idx + 1) = OpResult.err m) :
    db_complete_contract c cid =
      (false, ⟨c.env, c.idx + 2, c.log ++ [evComplete cid, Event.commit, Event.rollback]⟩,
        [UIMsg.uiError ("Error marking contract complete: " ++ m)]) :=
  writeOp_err2 c _ _ m r0 n0 h0 h1

theorem db_complete_contract_ok (c : Conn) (cid : Value) (r0 r1 : List Row) (n0 n1 : Nat)
    (h0 : c.env c.idx = OpResult.ok r0 n0) (h1 : c.env (c.idx + 1) = OpResult.ok r1 n1) :
    db_complete_contract c cid =
      (true, ⟨c.env, c.idx + 2, c.log ++ [evComplete cid, Event.commit]⟩, []) :=
  writeOp_ok c _ _ r0 r1 n0 n1 h0 h1

theorem db_create_review_err1 (c : Conn) (review_text : String) (rating : Nat)
    (cid : Value) (reviewer_id : Nat) (m : String)
    (h : c.env c.idx = OpResult.err m) :
    db_create_review c review_text rating cid reviewer_id =
      (false,
        ⟨c.env, c.idx + 1,
          c.log ++ [evReview review_text rating cid reviewer_id, Event.rollback]⟩,
        [UIMsg.uiError ("Error submitting review: " ++ m)]) :=
  writeOp_err1 c _ _ m h

theorem db_create_review_err2 (c : Conn) (review_text : String) (rating : Nat)
    (cid : Value) (reviewer_id : Nat) (m : String) (r0 : List Row) (n0 : Nat)
    (h0 : c.env c.idx = OpResult.ok r0 n0) (h1 : c.env (c.idx + 1) = OpResult.err m) :
    db_create_review c review_text rating cid reviewer_id =
      (false,
        ⟨c.env, c.idx + 2,
          c.log ++ [evReview review_text rating cid reviewer_id, Event.commit,
            Event.rollback]⟩,
        [UIMsg.uiError ("Error submitting review: " ++ m)]) :=
  writeOp_err2 c _ _ m r0 n0 h0 h1

theorem db_create_review_ok (c : Conn) (review_text : String) (rating : Nat)
    (cid : Value) (reviewer_id : Nat) (r0 r1 : List Row) (n0 n1 : Nat)
    (h0 : c.env c.idx = OpResult.ok r0 n0) (h1 : c.env (c.idx + 1) = OpResult.ok r1 n1) :
    db_create_review c review_text rating cid reviewer_id =
      (true,
        ⟨c.env, c.idx + 2,
          c.log ++ [evReview review_text rating cid reviewer_id, Event.commit]⟩, []) :=
  writeOp_ok c _ _ r0 r1 n0 n1 h0 h1

theorem db_create_payment_err1 (c : Conn) (amount : ℚ) (payment_method : String)
    (cid : Value) (m : String) (h : c.env c.idx = OpResult.err m) :
    db_create_payment c amount payment_method cid =
      (false,
        ⟨c.env, c.idx + 1,
          c.log ++ [evPayment amount payment_method cid, Event.rollback]⟩,
        [UIMsg.uiError ("Error processing payment: " ++ m)]) :=
  writeOp_err1 c _ _ m h

theorem db_create_payment_err2 (c : Conn) (amount : ℚ) (payment_method : String)
    (cid : Value) (m : String) (r0 : List Row) (n0 : Nat)
    (h0 : c.env c.idx = OpResult.ok r0 n0) (h1 : c.env (c.idx + 1) = OpResult.err m) :
    db_create_payment c amount payment_method cid =
      (false,
        ⟨c.env, c.idx + 2,
          c.log ++ [evPayment amount payment_method cid, Event.commit, Event.rollback]⟩,
        [UIMsg.uiError ("Error processing payment: " ++ m)]) :=
  writeOp_err2 c _ _ m r0 n0 h0 h1

theorem db_create_payment_ok (c : Conn) (amount : ℚ) (payment_method : String)
    (cid : Value) (r0 r1 : List Row) (n0 n1 : Nat)
    (h0 : c.env c.idx = OpResult.ok r0 n0) (h1 : c.env (c.idx + 1) = OpResult.ok r1 n1) :
    db_create_payment c amount payment_method cid =
      (true,
        ⟨c.env, c.idx + 2,
          c.log ++ [evPayment amount payment_method cid, Event.commit]⟩, []) :=
  writeOp_ok c _ _ r0 r1 n0 n1 h0 h1

/-- C1: in the contract-completion wizard the three steps are invoked
strictly in the order complete-contract, create-review, create-payment, and
in every run in which a step returns failure no later step's database call
is made: the wizard trace, restricted to the three step calls, is exactly
the sequence of steps up to and including the first failing one. -/
theorem c1_wizard_step_order (c : Conn) (s : Session) (reviewer_id rating : Nat)
    (review_text : String) (amount : ℚ) (payment_method : String) (cid : Value)
    (hlog : c.log = []) :
    ((completeContractSubmit c s reviewer_id rating review_text amount
        payment_method cid).2.1.log.filter isStep) =
      (if review_text = "" ∨ amount = 0 then []
       else if (db_complete_contract c cid).1 = false then
         [evComplete cid]
       else if (db_create_review (db_complete_contract c cid).2.1 review_text rating cid
           reviewer_id).1 = false then
         [evComplete cid, evReview review_text rating cid reviewer_id]
       else
         [evComplete cid, evReview review_text rating cid reviewer_id,
          evPayment amount payment_method cid]) := by
  by_cases hg : review_text = "" ∨ amount = 0
  · simp [completeContractSubmit, hg, hlog]
  · rcases h0 : c.env c.idx with ⟨r0, n0⟩ | m0
    · rcases h1 : c.env (c.idx + 1) with ⟨r1, n1⟩ | m1
      · have H1 := db_complete_contract_ok c cid r0 r1 n0 n1 h0 h1
        rcases h2 : c.env (c.idx + 2) with ⟨r2, n2⟩ | m2
        · rcases h3 : c.env (c.idx + 3) with ⟨r3, n3⟩ | m3
          · have H2 := db_create_review_ok
              ⟨c.env, c.idx + 2, [evComplete cid, Event.commit]⟩
              review_text rating cid reviewer_id r2 r3 n2 n3 h2 h3
            rcases h4 : c.env (c.idx + 4) with ⟨r4, n4⟩ | m4
            · rcases h5 : c.env (c.idx + 5) with ⟨r5, n5⟩ | m5
              · have H3 := db_create_payment_ok
                  ⟨c.env, c.idx + 4,
                    [evComplete cid, Event.commit,
                     evReview review_text rating cid reviewer_id, Event.commit]⟩
                  amount payment_method cid r4 r5 n4 n5 h4 h5
                simp [completeContractSubmit, hg, hlog, H1, H2, H3, isStep]
              · have H3 := db_create_payment_err2
                  ⟨c.env, c.idx + 4,
                    [evComplete cid, Event.commit,
                     evReview review_text rating cid reviewer_id, Event.commit]⟩
                  amount payment_method cid m5 r4 n4 h4 h5
                simp [completeContractSubmit, hg, hlog, H1, H2, H3, isStep]
            · have H3 := db_create_payment_err1
                ⟨c.env, c.idx + 4,
                  [evComplete cid, Event.commit,
                   evReview review_text rating cid reviewer_id, Event.commit]⟩
                amount payment_method cid m4 h4
              simp [completeContractSubmit, hg, hlog, H1, H2, H3, isStep]
          · have H2 := db_create_review_err2
              ⟨c.env, c.idx + 2, [evComplete cid, Event.commit]⟩
              review_text rating cid reviewer_id m3 r2 n2 h2 h3
            simp [completeContractSubmit, hg, hlog, H1, H2, isStep]
        · have H2 := db_create_review_err1
            ⟨c.env, c.idx + 2, [evComplete cid, Event.commit]⟩
            review_text rating cid reviewer_id m2 h2
          simp [completeContractSubmit, hg, hlog, H1, H2, isStep]
      · have H1 := db_complete_contract_err2 c cid m1 r0 n0 h0 h1
        simp [completeContractSubmit, hg, hlog, H1, isStep]
    · have H1 := db_complete_contract_err1 c cid m0 h0
      simp [completeContractSubmit, hg, hlog, H1, isStep]

/-- Oracle where the first two operations succeed and every later one
raises: the review step of the wizard fails. -/
def envReviewFails : Nat → OpResult :=
  fun n => if n < 2 then OpResult.ok [] 0 else OpResult.err "review boom"

/-- Oracle where the first four operations succeed and every later one
raises: the payment step of the wizard fails. -/
def envPaymentFails : Nat → OpResult :=
  fun n => if n < 4 then OpResult.ok [] 0 else OpResult.err "pay boom"

/-- A concrete pending contract and session for the wizard witnesses. -/
def ctWiz : Row := [("contract_id", Value.vNat 3)]

def sessWiz : Session :=
  { logged_in := true, user := some [("student_id", Value.vNat 7)],
    contract_to_complete := some ctWiz }

/-- Witness for C1: with an oracle failing from the third operation on, the
wizard run invokes complete-contract and create-review only. -/
theorem c1_witness :
    ((completeContractSubmit ⟨envReviewFails, 0, []⟩ sessWiz 7 5 "nice" 100 "UPI"
        (Value.vNat 3)).2.1.log.filter isStep) =
      [evComplete (Value.vNat 3), evReview "nice" 5 (Value.vNat 3) 7] := by
  have h := c1_wizard_step_order ⟨envReviewFails, 0, []⟩ sessWiz 7 5 "nice" 100 "UPI"
    (Value.vNat 3) rfl
  rw [h]
  decide

/-- C2: if the payment step fails after complete-contract and create-review
have both succeeded and committed, no compensating action is taken: the two
commits remain in the trace, the only rollback is the payment step's own and
it is the last operation, and the session still holds
`contract_to_complete`. -/
theorem c2_no_compensation (c : Conn) (s : Session) (reviewer_id rating : Nat)
    (review_text : String) (amount : ℚ) (payment_method : String) (cid : Value)
    (ct : Row) (m : String) (r0 r1 r2 r3 : List Row) (n0 n1 n2 n3 : Nat)
    (hlog : c.log = []) (hrt : review_text ≠ "") (ham : amount ≠ 0)
    (hcc : s.contract_to_complete = some ct)
    (h0 : c.env c.idx = OpResult.ok r0 n0)
    (h1 : c.env (c.idx + 1) = OpResult.ok r1 n1)
    (h2 : c.env (c.idx + 2) = OpResult.ok r2 n2)
    (h3 : c.env (c.idx + 3) = OpResult.ok r3 n3)
    (hf : c.env (c.idx + 4) = OpResult.err m ∨
      (∃ r4 n4, c.env (c.idx + 4) = OpResult.ok r4 n4 ∧
        c.env (c.idx + 5) = OpResult.err m)) :
    (completeContractSubmit c s reviewer_id rating review_text amount
      payment_method cid).1 = s ∧
    (completeContractSubmit c s reviewer_id rating review_text amount
      payment_method cid).1.contract_to_complete = some ct ∧
    (∃ t, (completeContractSubmit c s reviewer_id rating review_text amount
      payment_method cid).2.1.log =
        [evComplete cid, Event.commit, evReview review_text rating cid reviewer_id,
         Event.commit] ++ t) ∧
    (completeContractSubmit c s reviewer_id rating review_text amount
      payment_method cid).2.1.log.count Event.rollback = 1 ∧
    (completeContractSubmit c s reviewer_id rating review_text amount
      payment_method cid).2.1.log.getLast? = some Event.rollback ∧
    (completeContractSubmit c s reviewer_id rating review_text amount
      payment_method cid).2.2.getLast? =
        some (UIMsg.uiError "Payment failed. Please try again.") := by
  have hg : ¬(review_text = "" ∨ amount = 0) := by
    rintro (h | h) <;> [exact hrt h; exact ham h]
  have H1 := db_complete_contract_ok c cid r0 r1 n0 n1 h0 h1
  have H2 := db_create_review_ok
    ⟨c.env, c.idx + 2, [evComplete cid, Event.commit]⟩
    review_text rating cid reviewer_id r2 r3 n2 n3 h2 h3
  rcases hf with h4 | ⟨r4, n4, h4, h5⟩
  · have H3 := db_create_payment_err1
      ⟨c.env, c.idx + 4,
        [evComplete cid, Event.commit,
         evReview review_text rating cid reviewer_id, Event.commit]⟩
      amount payment_method cid m h4
    refine ⟨?_, ?_, ⟨[evPayment amount payment_method cid, Event.rollback], ?_⟩, ?_, ?_, ?_⟩ <;>
      simp [completeContractSubmit, hg, hlog, hcc, H1, H2, H3, List.count_cons,
        List.getLast?]
  · have H3 := db_create_payment_err2
      ⟨c.env, c.idx + 4,
        [evComplete cid, Event.commit,
         evReview review_text rating cid reviewer_id, Event.commit]⟩
      amount payment_method cid m r4 n4 h4 h5
    refine ⟨?_, ?_,
      ⟨[evPayment amount payment_method cid, Event.commit, Event.rollback], ?_⟩, ?_, ?_, ?_⟩ <;>
      simp [completeContractSubmit, hg, hlog, hcc, H1, H2, H3, List.count_cons,
        List.getLast?]

/-- Witness for C2: a run with the payment insert raising after the first
two steps committed. -/
theorem c2_witness :
    (completeContractSubmit ⟨envPaymentFails, 0, []⟩ sessWiz 7 5 "good" 100 "UPI"
      (Value.vNat 3)).1 = sessWiz ∧
    (completeContractSubmit ⟨envPaymentFails, 0, []⟩ sessWiz 7 5 "good" 100 "UPI"
      (Value.vNat 3)).2.1.log.count Event.rollback = 1 ∧
    (completeContractSubmit ⟨envPaymentFails, 0, []⟩ sessWiz 7 5 "good" 100 "UPI"
      (Value.vNat 3)).2.1.log.getLast? = some Event.rollback := by
  have h := c2_no_compensation ⟨envPaymentFails, 0, []⟩ sessWiz 7 5 "good" 100 "UPI"
    (Value.vNat 3) ctWiz "pay boom" [] [] [] [] 0 0 0 0 rfl (by decide) (by decide)
    rfl rfl rfl rfl rfl (Or.inl rfl)
  exact ⟨h.1, h.2.2.2.1, h.2.2.2.2.1⟩

/-- C3: every mutating data-access function, when the database raises an
error at any of its calls (first statement, later statement, or commit),
catches it, surfaces the error message, rolls back, and returns `False`
instead of propagating.  Stated for the error positions of the ten
single-statement mutators and all statement positions of `db_add_skill`. -/
theorem c3_mutator_error_handling
    (c : Conn) (m : String)
    (name email password phone department title description deadline
      skill_name proficiency review_text payment_method : String)
    (year user_id project_id app_id skill_id rating reviewer_id : Nat)
    (amount : ℚ) (cid : Value) :
    (c.env c.idx = OpResult.err m →
      failsWith (db_student_register c name email password phone department year)
        ("Error registering: " ++ m) ∧
      failsWith (db_apply_for_project c user_id project_id)
        ("Error applying for project: " ++ m) ∧
      failsWith (db_create_project c user_id title description deadline)
        ("Error creating project: " ++ m) ∧
      failsWith (db_accept_application c app_id)
        ("Error accepting application: " ++ m) ∧
      failsWith (db_reject_application c app_id)
        ("Error rejecting application: " ++ m) ∧
      failsWith (db_update_skill c user_id skill_id proficiency)
        ("Error updating skill: " ++ m) ∧
      failsWith (db_remove_skill c user_id skill_id)
        ("Error removing skill: " ++ m) ∧
      failsWith (db_complete_contract c cid)
        ("Error marking contract complete: " ++ m) ∧
      failsWith (db_create_review c review_text rating cid reviewer_id)
        ("Error submitting review: " ++ m) ∧
      failsWith (db_create_payment c amount payment_method cid)
        ("Error processing payment: " ++ m) ∧
      failsWithP (db_add_skill c user_id skill_name proficiency)
        ("Error adding skill: " ++ m)) ∧
    (∀ ra na, c.env c.idx = OpResult.ok ra na → c.env (c.idx + 1) = OpResult.err m →
      failsWith (db_student_register c name email password phone department year)
        ("Error registering: " ++ m) ∧
      failsWith (db_apply_for_project c user_id project_id)
        ("Error applying for project: " ++ m) ∧
      failsWith (db_create_project c user_id title description deadline)
        ("Error creating project: " ++ m) ∧
      failsWith (db_accept_application c app_id)
        ("Error accepting application: " ++ m) ∧
      failsWith (db_reject_application c app_id)
        ("Error rejecting application: " ++ m) ∧
      failsWith (db_update_skill c user_id skill_id proficiency)
        ("Error updating skill: " ++ m) ∧
      failsWith (db_remove_skill c user_id skill_id)
        ("Error removing skill: " ++ m) ∧
      failsWith (db_complete_contract c cid)
        ("Error marking contract complete: " ++ m) ∧
      failsWith (db_create_review c review_text rating cid reviewer_id)
        ("Error submitting review: " ++ m) ∧
      failsWith (db_create_payment c amount payment_method cid)
        ("Error processing payment: " ++ m)) ∧
    (∀ ra na, c.env c.idx = OpResult.ok ra na → rowTruthy ra.head? = false →
      c.env (c.idx + 1) = OpResult.err m →
      failsWithP (db_add_skill c user_id skill_name proficiency)
        ("Error adding skill: " ++ m)) ∧
    (∀ ra na sk rest nb sid, c.env c.idx = OpResult.ok ra na →
      rowTruthy ra.head? = false →
      c.env (c.idx + 1) = OpResult.ok (sk :: rest) nb →
      sk.isEmpty = false → rowGet sk "skill_id" = some sid →
      (c.env (c.idx + 2) = OpResult.err m →
        failsWithP (db_add_skill c user_id skill_name proficiency)
          ("Error adding skill: " ++ m)) ∧
      (∀ rc nc, c.env (c.idx + 2) = OpResult.ok rc nc →
        c.env (c.idx + 3) = OpResult.err m →
        failsWithP (db_add_skill c user_id skill_name proficiency)
          ("Error adding skill: " ++ m))) ∧
    (∀ ra na nb, c.env c.idx = OpResult.ok ra na → rowTruthy ra.head? = false →
      c.env (c.idx + 1) = OpResult.ok [] nb →
      (c.env (c.idx + 2) = OpResult.err m →
        failsWithP (db_add_skill c user_id skill_name proficiency)
          ("Error adding skill: " ++ m)) ∧
      (∀ rc rid, rid ≠ 0 → c.env (c.idx + 2) = OpResult.ok rc rid →
        (c.env (c.idx + 3) = OpResult.err m →
          failsWithP (db_add_skill c user_id skill_name proficiency)
            ("Error adding skill: " ++ m)) ∧
        (∀ rd nd, c.env (c.idx + 3) = OpResult.ok rd nd →
          c.env (c.idx + 4) = OpResult.err m →
          failsWithP (db_add_skill c user_id skill_name proficiency)
            ("Error adding skill: " ++ m))) ∧
      (∀ rc, c.env (c.idx + 2) = OpResult.ok rc 0 →
        (c.env (c.idx + 3) = OpResult.err m →
          failsWithP (db_add_skill c user_id skill_name proficiency)
            ("Error adding skill: " ++ m)) ∧
        (∀ sk2 rest2 nd sid2, c.env (c.idx + 3) = OpResult.ok (sk2 :: rest2) nd →
          rowGet sk2 "skill_id" = some sid2 →
          (c.env (c.idx + 4) = OpResult.err m →
            failsWithP (db_add_skill c user_id skill_name proficiency)
              ("Error adding skill: " ++ m)) ∧
          (∀ re ne2, c.env (c.idx + 4) = OpResult.ok re ne2 →
            c.env (c.idx + 5) = OpResult.err m →
            failsWithP (db_add_skill c user_id skill_name proficiency)
              ("Error adding skill: " ++ m))))) := by
  refine ⟨?_, ?_, ?_, ?_, ?_⟩
  · intro h
    refine ⟨writeOp_fails_err1 c _ _ m h, writeOp_fails_err1 c _ _ m h,
      writeOp_fails_err1 c _ _ m h, writeOp_fails_err1 c _ _ m h,
      writeOp_fails_err1 c _ _ m h, writeOp_fails_err1 c _ _ m h,
      writeOp_fails_err1 c _ _ m h, writeOp_fails_err1 c _ _ m h,
      writeOp_fails_err1 c _ _ m h, writeOp_fails_err1 c _ _ m h, ?_⟩
    simp [failsWithP, db_add_skill, runStmt, runRollback, h,
      List.getLast?_append_cons, List.getLast?_cons_cons]
  · intro ra na h0 h1
    exact ⟨writeOp_fails_err2 c _ _ m ra na h0 h1, writeOp_fails_err2 c _ _ m ra na h0 h1,
      writeOp_fails_err2 c _ _ m ra na h0 h1, writeOp_fails_err2 c _ _ m ra na h0 h1,
      writeOp_fails_err2 c _ _ m ra na h0 h1, writeOp_fails_err2 c _ _ m ra na h0 h1,
      writeOp_fails_err2 c _ _ m ra na h0 h1, writeOp_fails_err2 c _ _ m ra na h0 h1,
      writeOp_fails_err2 c _ _ m ra na h0 h1, writeOp_fails_err2 c _ _ m ra na h0 h1⟩
  · intro ra na h0 ht h1
    simp [failsWithP, db_add_skill, runStmt, runRollback, h0, ht, h1,
      List.getLast?_append_cons, List.getLast?_cons_cons]
  · intro ra na sk rest nb sid h0 ht h1 hsk hsid
    simp only [rowTruthy] at ht
    constructor
    · intro h2
      simp [failsWithP, db_add_skill, addSkillLink, runStmt, runCommit, runRollback,
        h0, ht, h1, hsk, hsid, rowTruthy, h2,
        List.getLast?_append_cons, List.getLast?_cons_cons]
    · intro rc nc h2 h3
      simp [failsWithP, db_add_skill, addSkillLink, runStmt, runCommit, runRollback,
        h0, ht, h1, hsk, hsid, rowTruthy, h2, h3,
        List.getLast?_append_cons, List.getLast?_cons_cons]
  · intro ra na nb h0 ht h1
    simp only [rowTruthy] at ht
    refine ⟨?_, ?_, ?_⟩
    · intro h2
      simp [failsWithP, db_add_skill, runStmt, runRollback, h0, ht, h1, h2, rowTruthy,
        List.getLast?_append_cons, List.getLast?_cons_cons]
    · intro rc rid hrid h2
      constructor
      · intro h3
        simp [failsWithP, db_add_skill, addSkillLink, runStmt, runCommit, runRollback,
          h0, ht, h1, h2, h3, hrid, rowTruthy,
          List.getLast?_append_cons, List.getLast?_cons_cons]
      · intro rd nd h3 h4
        simp [failsWithP, db_add_skill, addSkillLink, runStmt, runCommit, runRollback,
          h0, ht, h1, h2, h3, h4, hrid, rowTruthy,
          List.getLast?_append_cons, List.getLast?_cons_cons]
    · intro rc h2
      refine ⟨?_, ?_⟩
      · intro h3
        simp [failsWithP, db_add_skill, runStmt, runRollback, h0, ht, h1, h2, h3, rowTruthy,
          List.getLast?_append_cons, List.getLast?_cons_cons]
      · intro sk2 rest2 nd sid2 h3 hsid2
        constructor
        · intro h4
          simp [failsWithP, db_add_skill, addSkillLink, runStmt, runCommit, runRollback,
            h0, ht, h1, h2, h3, h4, hsid2, rowTruthy,
            List.getLast?_append_cons, List.getLast?_cons_cons]
        · intro re ne2 h4 h5
          simp [failsWithP, db_add_skill, addSkillLink, runStmt, runCommit, runRollback,
            h0, ht, h1, h2, h3, h4, h5, hsid2, rowTruthy,
            List.getLast?_append_cons, List.getLast?_cons_cons]

/-- Oracle where every operation raises. -/
def envAllErr : Nat → OpResult := fun _ => OpResult.err "db down"

/-- Witness for C3: with the very first database call raising, the apply and
add-skill operations return `False`, roll back, and surface the message. -/
theorem c3_witness :
    failsWith (db_apply_for_project ⟨envAllErr, 0, []⟩ 1 2)
      ("Error applying for project: " ++ "db down") ∧
    failsWithP (db_add_skill ⟨envAllErr, 0, []⟩ 1 "Python" "Beginner")
      ("Error adding skill: " ++ "db down") := by
  have h := (c3_mutator_error_handling ⟨envAllErr, 0, []⟩ "db down"
    "n" "e" "p" "ph" "d" "t" "desc" "dl" "Python" "Beginner" "rt" "UPI"
    2 1 2 3 4 5 6 100 (Value.vNat 3)).1 rfl
  obtain ⟨-, happ, -, -, -, -, -, -, -, -, hadd⟩ := h
  exact ⟨happ, hadd⟩

/-- Oracle whose every query answers with one row containing a
`student_id` column: the duplicate-skill check finds a row. -/
def envDupSkill : Nat → OpResult :=
  fun _ => OpResult.ok [[("student_id", Value.vNat 1)]] 0

/-- Counterexample to C4: the Python layer does carry out a business-rule
check beyond input shape.  On this run `db_add_skill` enforces per-student
skill uniqueness itself: it returns `False` with a duplicate warning, and
the trace shows the only database statement attempted was the Python-side
duplicate-check `SELECT` — no insert, no procedure call, no commit reached
the database, so the rejection was decided by the application code, not by
the database. -/
theorem c4_counterexample :
    (db_add_skill ⟨envDupSkill, 0, []⟩ 1 "Python" "Beginner").1 = PyRet.ret false ∧
    (db_add_skill ⟨envDupSkill, 0, []⟩ 1 "Python" "Beginner").2.2 =
      [UIMsg.uiWarning "You have already added \x27Python\x27 to your profile."] ∧
    (db_add_skill ⟨envDupSkill, 0, []⟩ 1 "Python" "Beginner").2.1.log =
      [Event.execute sqlCheckUserSkill [Value.vNat 1, Value.vStr "Python"]] := by
  decide

/-- C4 (amended): for every mutating operation except `db_add_skill`, once
shape checks pass no business-rule check is carried out by the Python code
before or instead of the database call — whatever the oracle answers, the
function's first trace action is its database call.  `db_add_skill` is the
exception: it enforces per-student skill uniqueness in Python, returning
`False` with a warning and attempting no statement beyond the check
`SELECT` when the check finds a row. -/
theorem c4_amended_no_python_checks
    (c : Conn) (name email password phone department title description deadline
      skill_name proficiency review_text payment_method : String)
    (year user_id project_id app_id skill_id rating reviewer_id : Nat)
    (amount : ℚ) (cid : Value) :
    (∃ t, (db_student_register c name email password phone department year).2.1.log =
      c.log ++ Event.execute sqlInsertStudent
        [Value.vStr name, Value.vStr email, Value.vStr password,
         Value.vStr phone, Value.vStr department, Value.vNat year] :: t) ∧
    (∃ t, (db_apply_for_project c user_id project_id).2.1.log =
      c.log ++ Event.callproc "sp_CreateApplication"
        [Value.vNat user_id, Value.vNat project_id] :: t) ∧
    (∃ t, (db_create_project c user_id title description deadline).2.1.log =
      c.log ++ Event.callproc "sp_CreateProject"
        [Value.vNat user_id, Value.vStr title, Value.vStr description,
         Value.vStr deadline] :: t) ∧
    (∃ t, (db_accept_application c app_id).2.1.log =
      c.log ++ Event.callproc "sp_AcceptApplication" [Value.vNat app_id] :: t) ∧
    (∃ t, (db_reject_application c app_id).2.1.log =
      c.log ++ Event.callproc "sp_RejectApplication" [Value.vNat app_id] :: t) ∧
    (∃ t, (db_update_skill c user_id skill_id proficiency).2.1.log =
      c.log ++ Event.execute sqlUpdateSkill
        [Value.vStr proficiency, Value.vNat user_id, Value.vNat skill_id] :: t) ∧
    (∃ t, (db_remove_skill c user_id skill_id).2.1.log =
      c.log ++ Event.execute sqlRemoveSkill
        [Value.vNat user_id, Value.vNat skill_id] :: t) ∧
    (∃ t, (db_complete_contract c cid).2.1.log =
      c.log ++ evComplete cid :: t) ∧
    (∃ t, (db_create_review c review_text rating cid reviewer_id).2.1.log =
      c.log ++ evReview review_text rating cid reviewer_id :: t) ∧
    (∃ t, (db_create_payment c amount payment_method cid).2.1.log =
      c.log ++ evPayment amount payment_method cid :: t) ∧
    (∀ ra na, c.env c.idx = OpResult.ok ra na → rowTruthy ra.head? = true →
      (db_add_skill c user_id skill_name proficiency).1 = PyRet.ret false ∧
      (db_add_skill c user_id skill_name proficiency).2.2 =
        [UIMsg.uiWarning
          ("You have already added \x27" ++ skill_name ++ "\x27 to your profile.")] ∧
      (db_add_skill c user_id skill_name proficiency).2.1.log =
        c.log ++ [Event.execute sqlCheckUserSkill
          [Value.vNat user_id, Value.vStr skill_name]]) := by
  refine ⟨writeOp_first c _ _, writeOp_first c _ _, writeOp_first c _ _,
    writeOp_first c _ _, writeOp_first c _ _, writeOp_first c _ _,
    writeOp_first c _ _, writeOp_first c _ _, writeOp_first c _ _,
    writeOp_first c _ _, ?_⟩
  intro ra na h0 ht
  simp [db_add_skill, runStmt, h0, ht]

/-- Witness for C4's amended claim: a concrete duplicate-check hit, and the
unconditional first database call of `db_apply_for_project`. -/
theorem c4_amended_witness :
    (db_add_skill ⟨envDupSkill, 2, []⟩ 1 "Go" "Beginner").1 = PyRet.ret false ∧
    (∃ t, (db_apply_for_project ⟨envDupSkill, 2, []⟩ 1 2).2.1.log =
      [] ++ Event.callproc "sp_CreateApplication"
        [Value.vNat 1, Value.vNat 2] :: t) := by
  have h := c4_amended_no_python_checks ⟨envDupSkill, 2, []⟩
    "n" "e" "p" "ph" "d" "t" "desc" "dl" "Go" "Beginner" "rt" "UPI"
    2 1 2 3 4 5 6 100 (Value.vNat 3)
  obtain ⟨-, happ, -, -, -, -, -, -, -, -, hadd⟩ := h
  exact ⟨(hadd [[("student_id", Value.vNat 1)]] 0 rfl rfl).1, happ⟩

/-- C5: a login submission with an empty email or password, and a sign-up
submission with a missing required field or mismatched passwords, is
rejected with a warning/error and the connection is untouched — no
database call is made (`db_student_login` / `db_student_register` is not
invoked, so the trace and operation counter are exactly the incoming
ones). -/
theorem c5_shape_checks_before_db
    (c : Conn) (s : Session)
    (email name password confirm_password phone department : String) (year : Nat) :
    ((email = "" ∨ password = "") →
      loginSubmit c s email password =
        (s, c, [UIMsg.uiWarning "Please fill in all fields."])) ∧
    ((email = "" ∨ name = "" ∨ password = "" ∨ department = "") →
      signupSubmit c email name password confirm_password phone department year =
        (c, [UIMsg.uiWarning "Please fill in all required fields."])) ∧
    (email ≠ "" → name ≠ "" → password ≠ "" → department ≠ "" →
      password ≠ confirm_password →
      signupSubmit c email name password confirm_password phone department year =
        (c, [UIMsg.uiError "Passwords do not match."])) := by
  refine ⟨?_, ?_, ?_⟩
  · intro h
    simp [loginSubmit, h]
  · intro h
    simp [signupSubmit, h]
  · intro h1 h2 h3 h4 h5
    simp [signupSubmit, h1, h2, h3, h4, h5]

/-- Witness for C5: empty login password, and a sign-up password mismatch,
each leaving the connection untouched. -/
theorem c5_witness :
    loginSubmit ⟨envAllErr, 0, []⟩ initSession "a@pesu.edu" "" =
      (initSession, ⟨envAllErr, 0, []⟩, [UIMsg.uiWarning "Please fill in all fields."]) ∧
    signupSubmit ⟨envAllErr, 0, []⟩ "a@pesu.edu" "A" "pw1" "pw2" "" "CSE" 2 =
      (⟨envAllErr, 0, []⟩, [UIMsg.uiError "Passwords do not match."]) := by
  have hl := c5_shape_checks_before_db ⟨envAllErr, 0, []⟩ initSession
    "a@pesu.edu" "A" "" "pw2" "" "CSE" 2
  have hs := c5_shape_checks_before_db ⟨envAllErr, 0, []⟩ initSession
    "a@pesu.edu" "A" "pw1" "pw2" "" "CSE" 2
  exact ⟨hl.1 (Or.inr rfl),
    hs.2.2 (by decide) (by decide) (by decide) (by decide) (by decide)⟩

/-- Oracle where every operation succeeds with an empty result set. -/
def envAllOk : Nat → OpResult := fun _ => OpResult.ok [] 0

set_option maxRecDepth 4096 in
/-- Counterexample to C6: `db_get_my_contracts` executes two queries, not
exactly one, and neither commits nor rolls back on this successful run. -/
theorem c6_counterexample :
    (db_get_my_contracts ⟨envAllOk, 0, []⟩ 1).2.1.log =
      [Event.execute sqlContractsFreelancer [Value.vNat 1],
       Event.execute sqlContractsOwner [Value.vNat 1]] ∧
    (db_get_my_contracts ⟨envAllOk, 0, []⟩ 1).2.1.log.length = 2 ∧
    Event.commit ∉ (db_get_my_contracts ⟨envAllOk, 0, []⟩ 1).2.1.log ∧
    Event.rollback ∉ (db_get_my_contracts ⟨envAllOk, 0, []⟩ 1).2.1.log := by
  decide

/-- C6 (amended): each data-access function executes a fixed short sequence
of statements and returns plain records.  On a successful run the ten
single-statement mutators execute exactly one query or procedure call
followed by a commit; the five single-`SELECT` readers execute exactly one
statement and no commit or rollback; `db_get_my_contracts` and
`db_get_my_reviews` execute exactly two; `db_add_skill` executes its
duplicate-check `SELECT`, the skill lookup, (at most an insert and a
re-lookup,) the link insert, and a commit.  No state is carried between
calls: every output is a function of the incoming connection and the
arguments alone. -/
theorem c6_amended_call_shapes
    (c : Conn) (name email password phone department title description deadline
      skill_name proficiency review_text payment_method : String)
    (year user_id project_id app_id skill_id rating reviewer_id : Nat)
    (amount : ℚ) (cid : Value) (r0 r1 : List Row) (n0 n1 : Nat)
    (h0 : c.env c.idx = OpResult.ok r0 n0)
    (h1 : c.env (c.idx + 1) = OpResult.ok r1 n1) :
    db_student_register c name email password phone department year =
      (true, ⟨c.env, c.idx + 2, c.log ++ [Event.execute sqlInsertStudent
        [Value.vStr name, Value.vStr email, Value.vStr password,
         Value.vStr phone, Value.vStr department, Value.vNat year],
        Event.commit]⟩, []) ∧
    db_apply_for_project c user_id project_id =
      (true, ⟨c.env, c.idx + 2, c.log ++ [Event.callproc "sp_CreateApplication"
        [Value.vNat user_id, Value.vNat project_id], Event.commit]⟩, []) ∧
    db_create_project c user_id title description deadline =
      (true, ⟨c.env, c.idx + 2, c.log ++ [Event.callproc "sp_CreateProject"
        [Value.vNat user_id, Value.vStr title, Value.vStr description,
         Value.vStr deadline], Event.commit]⟩, []) ∧
    db_accept_application c app_id =
      (true, ⟨c.env, c.idx + 2, c.log ++ [Event.callproc "sp_AcceptApplication"
        [Value.vNat app_id], Event.commit]⟩, []) ∧
    db_reject_application c app_id =
      (true, ⟨c.env, c.idx + 2, c.log ++ [Event.callproc "sp_RejectApplication"
        [Value.vNat app_id], Event.commit]⟩, []) ∧
    db_update_skill c user_id skill_id proficiency =
      (true, ⟨c.env, c.idx + 2, c.log ++ [Event.execute sqlUpdateSkill
        [Value.vStr proficiency, Value.vNat user_id, Value.vNat skill_id],
        Event.commit]⟩, []) ∧
    db_remove_skill c user_id skill_id =
      (true, ⟨c.env, c.idx + 2, c.log ++ [Event.execute sqlRemoveSkill
        [Value.vNat user_id, Value.vNat skill_id], Event.commit]⟩, []) ∧
    db_complete_contract c cid =
      (true, ⟨c.env, c.idx + 2, c.log ++ [evComplete cid, Event.commit]⟩, []) ∧
    db_create_review c review_text rating cid reviewer_id =
      (true, ⟨c.env, c.idx + 2,
        c.log ++ [evReview review_text rating cid reviewer_id, Event.commit]⟩, []) ∧
    db_create_payment c amount payment_method cid =
      (true, ⟨c.env, c.idx + 2,
        c.log ++ [evPayment amount payment_method cid, Event.commit]⟩, []) ∧
    db_student_login c email password =
      (r0.head?, ⟨c.env, c.idx + 1, c.log ++ [Event.callproc "sp_StudentLogin"
        [Value.vStr email, Value.vStr password]]⟩, []) ∧
    db_get_open_projects c =
      (r0, ⟨c.env, c.idx + 1, c.log ++ [Event.callproc "sp_SearchProjects"
        [Value.vNull, Value.vStr "Open"]]⟩, []) ∧
    db_get_my_projects c user_id =
      (r0, ⟨c.env, c.idx + 1,
        c.log ++ [Event.execute sqlMyProjects [Value.vNat user_id]]⟩, []) ∧
    db_get_pending_applications c project_id =
      (r0, ⟨c.env, c.idx + 1,
        c.log ++ [Event.execute sqlPendingApps [Value.vNat project_id]]⟩, []) ∧
    db_get_my_skills c user_id =
      (r0, ⟨c.env, c.idx + 1,
        c.log ++ [Event.execute sqlMySkills [Value.vNat user_id]]⟩, []) ∧
    db_get_my_contracts c user_id =
      ((r0, r1), ⟨c.env, c.idx + 2,
        c.log ++ [Event.execute sqlContractsFreelancer [Value.vNat user_id],
          Event.execute sqlContractsOwner [Value.vNat user_id]]⟩, []) ∧
    db_get_my_reviews c user_id =
      ((r0.head?, r1), ⟨c.env, c.idx + 2,
        c.log ++ [Event.execute sqlReviewStats [Value.vNat user_id, Value.vNat user_id],
          Event.execute sqlMyReviews [Value.vNat user_id]]⟩, []) ∧
    (rowTruthy r0.head? = false → ∀ sk rest sid, r1 = sk :: rest →
      sk.isEmpty = false → rowGet sk "skill_id" = some sid →
      ∀ r2 r3 n2 n3, c.env (c.idx + 2) = OpResult.ok r2 n2 →
        c.env (c.idx + 3) = OpResult.ok r3 n3 →
        db_add_skill c user_id skill_name proficiency =
          (PyRet.ret true, ⟨c.env, c.idx + 4,
            c.log ++ [Event.execute sqlCheckUserSkill
                [Value.vNat user_id, Value.vStr skill_name],
              Event.execute sqlSelectSkillId [Value.vStr skill_name],
              Event.execute sqlInsertStudentSkill
                [Value.vNat user_id, sid, Value.vStr proficiency],
              Event.commit]⟩, [])) := by
  refine ⟨writeOp_ok c _ _ r0 r1 n0 n1 h0 h1, writeOp_ok c _ _ r0 r1 n0 n1 h0 h1,
    writeOp_ok c _ _ r0 r1 n0 n1 h0 h1, writeOp_ok c _ _ r0 r1 n0 n1 h0 h1,
    writeOp_ok c _ _ r0 r1 n0 n1 h0 h1, writeOp_ok c _ _ r0 r1 n0 n1 h0 h1,
    writeOp_ok c _ _ r0 r1 n0 n1 h0 h1, writeOp_ok c _ _ r0 r1 n0 n1 h0 h1,
    writeOp_ok c _ _ r0 r1 n0 n1 h0 h1, writeOp_ok c _ _ r0 r1 n0 n1 h0 h1,
    ?_, ?_, ?_, ?_, ?_, ?_, ?_, ?_⟩
  · simp [db_student_login, runStmt, h0]
  · simp [db_get_open_projects, runStmt, h0]
  · simp [db_get_my_projects, runStmt, h0]
  · simp [db_get_pending_applications, runStmt, h0]
  · simp [db_get_my_skills, runStmt, h0]
  · simp [db_get_my_contracts, runStmt, h0, h1]
  · simp [db_get_my_reviews, runStmt, h0, h1]
  · intro ht sk rest sid hr1 hsk hsid r2 r3 n2 n3 h2 h3
    subst hr1
    simp only [rowTruthy] at ht
    simp [db_add_skill, addSkillLink, runStmt, runCommit, rowTruthy,
      h0, h1, h2, h3, ht, hsk, hsid]

/-- Witness for C6's amended claim: the two-query read and a one-query
mutator on an all-ok oracle. -/
theorem c6_witness :
    db_get_my_contracts ⟨envAllOk, 0, []⟩ 1 =
      (([], []), ⟨envAllOk, 2,
        [Event.execute sqlContractsFreelancer [Value.vNat 1],
         Event.execute sqlContractsOwner [Value.vNat 1]]⟩, []) ∧
    db_accept_application ⟨envAllOk, 0, []⟩ 9 =
      (true, ⟨envAllOk, 2, [Event.callproc "sp_AcceptApplication"
        [Value.vNat 9], Event.commit]⟩, []) := by
  have h := c6_amended_call_shapes ⟨envAllOk, 0, []⟩
    "n" "e" "p" "ph" "d" "t" "desc" "dl" "Py" "Beg" "rt" "UPI"
    2 1 2 9 4 5 6 100 (Value.vNat 3) [] [] 0 0 rfl rfl
  obtain ⟨-, -, -, hacc, -, -, -, -, -, -, -, -, -, -, -, hcon, -, -⟩ := h
  exact ⟨hcon, hacc⟩

/-- C7: `db_add_skill` creates the `Skill` row on first use and reuses it
afterwards.  When the skill-name lookup finds a row it reuses that
`skill_id` and inserts no `Skill` row; when the lookup comes back empty it
inserts a new `Skill` row and uses the new id (`lastrowid`, or the re-read
id when `lastrowid` is 0); in every case exactly one `Student_Skill` row
linking the user to that skill with the given proficiency is inserted. -/
theorem c7_add_skill_get_or_create
    (c : Conn) (user_id : Nat) (skill_name proficiency : String)
    (r0 : List Row) (n0 : Nat)
    (h0 : c.env c.idx = OpResult.ok r0 n0) (ht : rowTruthy r0.head? = false) :
    (∀ sk rest n1 sid, c.env (c.idx + 1) = OpResult.ok (sk :: rest) n1 →
      sk.isEmpty = false → rowGet sk "skill_id" = some sid →
      ∀ r2 r3 n2 n3, c.env (c.idx + 2) = OpResult.ok r2 n2 →
        c.env (c.idx + 3) = OpResult.ok r3 n3 →
        db_add_skill c user_id skill_name proficiency =
          (PyRet.ret true, ⟨c.env, c.idx + 4,
            c.log ++ [Event.execute sqlCheckUserSkill
                [Value.vNat user_id, Value.vStr skill_name],
              Event.execute sqlSelectSkillId [Value.vStr skill_name],
              Event.execute sqlInsertStudentSkill
                [Value.vNat user_id, sid, Value.vStr proficiency],
              Event.commit]⟩, [])) ∧
    (∀ n1 r2 rid, c.env (c.idx + 1) = OpResult.ok [] n1 →
      c.env (c.idx + 2) = OpResult.ok r2 rid → rid ≠ 0 →
      ∀ r3 r4 n3 n4, c.env (c.idx + 3) = OpResult.ok r3 n3 →
        c.env (c.idx + 4) = OpResult.ok r4 n4 →
        db_add_skill c user_id skill_name proficiency =
          (PyRet.ret true, ⟨c.env, c.idx + 5,
            c.log ++ [Event.execute sqlCheckUserSkill
                [Value.vNat user_id, Value.vStr skill_name],
              Event.execute sqlSelectSkillId [Value.vStr skill_name],
              Event.execute sqlInsertSkill [Value.vStr skill_name],
              Event.execute sqlInsertStudentSkill
                [Value.vNat user_id, Value.vNat rid, Value.vStr proficiency],
              Event.commit]⟩, [])) ∧
    (∀ n1 r2, c.env (c.idx + 1) = OpResult.ok [] n1 →
      c.env (c.idx + 2) = OpResult.ok r2 0 →
      ∀ sk2 rest2 n3 sid2, c.env (c.idx + 3) = OpResult.ok (sk2 :: rest2) n3 →
        rowGet sk2 "skill_id" = some sid2 →
        ∀ r4 r5 n4 n5, c.env (c.idx + 4) = OpResult.ok r4 n4 →
          c.env (c.idx + 5) = OpResult.ok r5 n5 →
          db_add_skill c user_id skill_name proficiency =
            (PyRet.ret true, ⟨c.env, c.idx + 6,
              c.log ++ [Event.execute sqlCheckUserSkill
                  [Value.vNat user_id, Value.vStr skill_name],
                Event.execute sqlSelectSkillId [Value.vStr skill_name],
                Event.execute sqlInsertSkill [Value.vStr skill_name],
                Event.execute sqlSelectSkillId [Value.vStr skill_name],
                Event.execute sqlInsertStudentSkill
                  [Value.vNat user_id, sid2, Value.vStr proficiency],
                Event.commit]⟩, [])) := by
  have ht' := ht
  simp only [rowTruthy] at ht'
  refine ⟨?_, ?_, ?_⟩
  · intro sk rest n1 sid h1 hsk hsid r2 r3 n2 n3 h2 h3
    simp [db_add_skill, addSkillLink, runStmt, runCommit, rowTruthy,
      h0, h1, h2, h3, ht', hsk, hsid]
  · intro n1 r2 rid h1 h2 hrid r3 r4 n3 n4 h3 h4
    simp [db_add_skill, addSkillLink, runStmt, runCommit, rowTruthy,
      h0, h1, h2, h3, h4, ht', hrid]
  · intro n1 r2 h1 h2 sk2 rest2 n3 sid2 h3 hsid2 r4 r5 n4 n5 h4 h5
    simp [db_add_skill, addSkillLink, runStmt, runCommit, rowTruthy,
      h0, h1, h2, h3, h4, h5, ht', hsid2]

/-- Oracle for the C7 witness: the skill-name lookup (operation 1) finds a
`Skill` row with id 42, every other operation succeeds with nothing. -/
def envSkillFound : Nat → OpResult :=
  fun n => if n = 1 then OpResult.ok [[("skill_id", Value.vNat 42)]] 0
    else OpResult.ok [] 0

/-- Witness for C7: the existing-skill path reuses skill id 42 for the
`Student_Skill` insert and inserts no `Skill` row. -/
theorem c7_witness :
    db_add_skill ⟨envSkillFound, 0, []⟩ 1 "Python" "Beginner" =
      (PyRet.ret true, ⟨envSkillFound, 4,
        [Event.execute sqlCheckUserSkill [Value.vNat 1, Value.vStr "Python"],
         Event.execute sqlSelectSkillId [Value.vStr "Python"],
         Event.execute sqlInsertStudentSkill
           [Value.vNat 1, Value.vNat 42, Value.vStr "Beginner"],
         Event.commit]⟩, []) := by
  have h := (c7_add_skill_get_or_create ⟨envSkillFound, 0, []⟩ 1 "Python" "Beginner"
    [] 0 rfl rfl).1 [("skill_id", Value.vNat 42)] [] 0 (Value.vNat 42)
    rfl rfl rfl [] [] 0 0 rfl rfl
  exact h

/-- Recognizer for stored-procedure calls in a trace. -/
def isProcCall : Event → Bool
  | Event.callproc _ _ => true
  | _ => false

/-- C8: payment records are inserted by a direct parameterized `INSERT` from
the application, not via a stored procedure: on every run of
`db_create_payment` the first trace action is the `Payment` insert with the
given amount, method and contract id, the executed SQL literally fixes
`payment_date = CURDATE()` and `status = \x27Paid\x27`, and no procedure call
appears in the run's trace. -/
theorem c8_payment_direct_insert (c : Conn) (amount : ℚ) (payment_method : String)
    (cid : Value) :
    sqlInsertPayment =
      "INSERT INTO Payment (amount, payment_date, status, payment_method, contract_id) VALUES (%s, CURDATE(), \x27Paid\x27, %s, %s)" ∧
    ((db_create_payment c amount payment_method cid).2.1.log.drop c.log.length).head? =
      some (Event.execute sqlInsertPayment
        [Value.vRat amount, Value.vStr payment_method, cid]) ∧
    ((db_create_payment c amount payment_method cid).2.1.log.drop
      c.log.length).filter isProcCall = [] := by
  refine ⟨rfl, ?_, ?_⟩ <;>
    · rcases h0 : c.env c.idx with ⟨r0, n0⟩ | m0
      · rcases h1 : c.env (c.idx + 1) with ⟨r1, n1⟩ | m1
        · rw [db_create_payment_ok c amount payment_method cid r0 r1 n0 n1 h0 h1]
          simp [List.drop_left, isProcCall]
        · rw [db_create_payment_err2 c amount payment_method cid m1 r0 n0 h0 h1]
          simp [List.drop_left, isProcCall]
      · rw [db_create_payment_err1 c amount payment_method cid m0 h0]
        simp [List.drop_left, isProcCall]

/-- The session invariant of the claim: `logged_in` is `True` exactly when
`user` holds a record. -/
def SessionInv (s : Session) : Prop := s.logged_in = true ↔ s.user.isSome

/-- C9: the web front end maintains `logged_in = True` exactly when `user`
holds a record: initialization sets `(False, None)`, a successful login
sets `(True, user)` together, logout sets `(False, None)` together, a
failed login leaves the session unchanged, and each of these steps
preserves the invariant. -/
theorem c9_session_invariant :
    (initSession.logged_in = false ∧ initSession.user = none) ∧
    (∀ s, (logoutAction s).logged_in = false ∧ (logoutAction s).user = none) ∧
    (∀ c s email password, ¬(email = "" ∨ password = "") →
      (rowTruthy (db_student_login c email password).1 = true →
        (loginSubmit c s email password).1.logged_in = true ∧
        (loginSubmit c s email password).1.user =
          (db_student_login c email password).1) ∧
      (rowTruthy (db_student_login c email password).1 = false →
        (loginSubmit c s email password).1 = s)) ∧
    SessionInv initSession ∧
    (∀ s, SessionInv (logoutAction s)) ∧
    (∀ c s email password, SessionInv s →
      SessionInv (loginSubmit c s email password).1) := by
  refine ⟨⟨rfl, rfl⟩, fun s => ⟨rfl, rfl⟩, ?_, ?_, ?_, ?_⟩
  · intro c s email password hg
    rcases hd : db_student_login c email password with ⟨u, c1, ms⟩
    constructor
    · intro htr
      simp only [] at htr
      simp [loginSubmit, hg, hd, htr]
    · intro hf
      simp only [] at hf
      simp [loginSubmit, hg, hd, hf]
  · simp [SessionInv, initSession]
  · intro s
    simp [SessionInv, logoutAction]
  · intro c s email password hinv
    by_cases hg : email = "" ∨ password = ""
    · simpa [loginSubmit, hg] using hinv
    · rcases hd : db_student_login c email password with ⟨u, c1, ms⟩
      by_cases htr : rowTruthy u = true
      · cases u with
        | none => simp [rowTruthy] at htr
        | some r => simp [loginSubmit, hg, hd, htr, SessionInv]
      · simpa [loginSubmit, hg, hd, htr] using hinv

/-- Oracle whose every operation returns one student record. -/
def envLoginOk : Nat → OpResult :=
  fun _ => OpResult.ok [[("student_id", Value.vNat 7), ("name", Value.vStr "A")]] 0

/-- Witness for C9: a successful login sets `logged_in` and `user` together. -/
theorem c9_witness :
    (loginSubmit ⟨envLoginOk, 0, []⟩ initSession "a@pesu.edu" "pw").1.logged_in = true ∧
    (loginSubmit ⟨envLoginOk, 0, []⟩ initSession "a@pesu.edu" "pw").1.user =
      some [("student_id", Value.vNat 7), ("name", Value.vStr "A")] := by
  have h := (c9_session_invariant.2.2.1 ⟨envLoginOk, 0, []⟩ initSession
    "a@pesu.edu" "pw" (by decide)).1 (by decide)
  exact ⟨h.1, h.2.trans (by decide)⟩

/-- C10: the read-only data-access functions never commit or roll back and
issue only their fixed `SELECT`s / result-returning procedure calls — their
whole appended trace is exactly those calls, whatever the oracle answers —
and on a database error each returns its empty default (`None`, `[]`,
`([], [])`, or `(None, [])`). -/
theorem c10_readonly_frame (c : Conn) (email password : String)
    (user_id project_id : Nat) (m : String) :
    ((db_student_login c email password).2.1.log =
      c.log ++ [Event.callproc "sp_StudentLogin"
        [Value.vStr email, Value.vStr password]]) ∧
    ((db_get_open_projects c).2.1.log =
      c.log ++ [Event.callproc "sp_SearchProjects"
        [Value.vNull, Value.vStr "Open"]]) ∧
    ((db_get_my_projects c user_id).2.1.log =
      c.log ++ [Event.execute sqlMyProjects [Value.vNat user_id]]) ∧
    ((db_get_pending_applications c project_id).2.1.log =
      c.log ++ [Event.execute sqlPendingApps [Value.vNat project_id]]) ∧
    ((db_get_my_skills c user_id).2.1.log =
      c.log ++ [Event.execute sqlMySkills [Value.vNat user_id]]) ∧
    ((db_get_my_contracts c user_id).2.1.log =
      c.log ++ [Event.execute sqlContractsFreelancer [Value.vNat user_id]] ∨
     (db_get_my_contracts c user_id).2.1.log =
      c.log ++ [Event.execute sqlContractsFreelancer [Value.vNat user_id],
        Event.execute sqlContractsOwner [Value.vNat user_id]]) ∧
    ((db_get_my_reviews c user_id).2.1.log =
      c.log ++ [Event.execute sqlReviewStats
        [Value.vNat user_id, Value.vNat user_id]] ∨
     (db_get_my_reviews c user_id).2.1.log =
      c.log ++ [Event.execute sqlReviewStats
        [Value.vNat user_id, Value.vNat user_id],
        Event.execute sqlMyReviews [Value.vNat user_id]]) ∧
    (c.env c.idx = OpResult.err m →
      (db_student_login c email password).1 = none ∧
      (db_get_open_projects c).1 = [] ∧
      (db_get_my_projects c user_id).1 = [] ∧
      (db_get_pending_applications c project_id).1 = [] ∧
      (db_get_my_skills c user_id).1 = [] ∧
      (db_get_my_contracts c user_id).1 = ([], []) ∧
      (db_get_my_reviews c user_id).1 = (none, [])) ∧
    (∀ r0 n0, c.env c.idx = OpResult.ok r0 n0 → c.env (c.idx + 1) = OpResult.err m →
      (db_get_my_contracts c user_id).1 = ([], []) ∧
      (db_get_my_reviews c user_id).1 = (none, [])) := by
  refine ⟨?_, ?_, ?_, ?_, ?_, ?_, ?_, ?_, ?_⟩
  · rcases h0 : c.env c.idx with ⟨r0, n0⟩ | m0 <;> simp [db_student_login, runStmt, h0]
  · rcases h0 : c.env c.idx with ⟨r0, n0⟩ | m0 <;> simp [db_get_open_projects, runStmt, h0]
  · rcases h0 : c.env c.idx with ⟨r0, n0⟩ | m0 <;> simp [db_get_my_projects, runStmt, h0]
  · rcases h0 : c.env c.idx with ⟨r0, n0⟩ | m0 <;>
      simp [db_get_pending_applications, runStmt, h0]
  · rcases h0 : c.env c.idx with ⟨r0, n0⟩ | m0 <;> simp [db_get_my_skills, runStmt, h0]
  · rcases h0 : c.env c.idx with ⟨r0, n0⟩ | m0
    · rcases h1 : c.env (c.idx + 1) with ⟨r1, n1⟩ | m1 <;>
        · right
          simp [db_get_my_contracts, runStmt, h0, h1]
    · left
      simp [db_get_my_contracts, runStmt, h0]
  · rcases h0 : c.env c.idx with ⟨r0, n0⟩ | m0
    · rcases h1 : c.env (c.idx + 1) with ⟨r1, n1⟩ | m1 <;>
        · right
          simp [db_get_my_reviews, runStmt, h0, h1]
    · left
      simp [db_get_my_reviews, runStmt, h0]
  · intro h0
    refine ⟨?_, ?_, ?_, ?_, ?_, ?_, ?_⟩ <;>
      simp [db_student_login, db_get_open_projects, db_get_my_projects,
        db_get_pending_applications, db_get_my_skills, db_get_my_contracts,
        db_get_my_reviews, runStmt, h0]
  · intro r0 n0 h0 h1
    constructor <;>
      simp [db_get_my_contracts, db_get_my_reviews, runStmt, h0, h1]

/-- Witness for C10: with every operation raising, each reader returns its
empty default and the trace holds only the attempted read. -/
theorem c10_witness :
    (db_get_my_contracts ⟨envAllErr, 0, []⟩ 1).1 = ([], []) ∧
    (db_get_my_reviews ⟨envAllErr, 0, []⟩ 1).1 = (none, []) ∧
    (db_student_login ⟨envAllErr, 0, []⟩ "e" "p").2.1.log =
      [Event.callproc "sp_StudentLogin" [Value.vStr "e", Value.vStr "p"]] := by
  have h := c10_readonly_frame ⟨envAllErr, 0, []⟩ "e" "p" 1 1 "db down"
  have he := h.2.2.2.2.2.2.2.1 rfl
  exact ⟨he.2.2.2.2.2.1, he.2.2.2.2.2.2, h.1.trans (by simp)⟩

end PESUConnect
